import Mathlib

/-!
Shallow embedding of the kk-beauty-backend Express server
(`src/unnamed/part_000`), the newsletter service (`src/unnamed/part_001`)
together with its schema (`src/backend/database/newsletter-schema.sql`),
and the spec-modelled pieces of the absent `orderService.js`.

JavaScript dynamic values are modelled by `JSValue`; JS numbers (which may
be NaN) by `JNum` with rational payloads — the decimal arithmetic the
handlers perform is exact on the inputs involved, so `Rat` is faithful.
-/

/-- A JS number: either NaN or an actual (rational) value. -/
inductive JNum where
  | nan : JNum
  | val (q : Rat) : JNum
deriving DecidableEq, Repr

/-- The JS values the request bodies in this server can carry in the
fields the handlers inspect dynamically: strings, numbers, or a
missing/undefined field. -/
inductive JSValue where
  | str (s : String) : JSValue
  | num (n : JNum) : JSValue
  | undef : JSValue
deriving DecidableEq, Repr

/-- JS truthiness for the values above: `""`, `0`, `NaN` and `undefined`
are falsy; every other string or number is truthy. -/
def JSValue.truthy : JSValue → Bool
  | .str s => s ≠ ""
  | .num .nan => false
  | .num (.val q) => q ≠ 0
  | .undef => false

/-- Numeric value of a run of decimal digits. -/
def digitsVal (ds : List Char) : Nat :=
  ds.foldl (fun acc c => 10 * acc + (c.toNat - '0'.toNat)) 0

/-- The rational `sign * (intPart + fracPart / 10^k)` of a decimal
literal, assembled over the integers (so that it evaluates by
reduction). -/
def floatOfParts (sign : Int) (intDs fracDs : List Char) : Rat :=
  mkRat (sign * ((digitsVal intDs : Int) * 10 ^ fracDs.length + (digitsVal fracDs : Int)))
    (10 ^ fracDs.length)

/-- Embedding of JS `parseFloat` on a character list: skip leading
spaces, optional sign, then the longest `digits [. digits]` prefix; NaN
when no digit is consumed.  (Exponent forms and exotic whitespace are not
exercised by this server's inputs and are not modelled.) -/
def parseFloatChars (cs : List Char) : JNum :=
  let cs := cs.dropWhile (· = ' ')
  let sign : Int := if cs.head? = some '-' then -1 else 1
  let cs := if cs.head? = some '-' ∨ cs.head? = some '+' then cs.tail else cs
  let intDs := cs.takeWhile Char.isDigit
  let rest := cs.drop intDs.length
  let fracDs := if rest.head? = some '.' then rest.tail.takeWhile Char.isDigit else []
  if intDs.isEmpty ∧ fracDs.isEmpty then .nan
  else .val (floatOfParts sign intDs fracDs)

/-- JS `parseFloat` on a string. -/
def parseFloatStr (s : String) : JNum := parseFloatChars s.data

/-- JS `parseFloat` applied to a dynamic value (`parseFloat(undefined)`
is NaN; numbers pass through). -/
def jsParseFloat : JSValue → JNum
  | .str s => parseFloatStr s
  | .num n => n
  | .undef => .nan

/-- Remove the first occurrence of a character, as JS
`s.replace('$', '')` does with a single-character string pattern. -/
def removeFirst (c : Char) : List Char → List Char
  | [] => []
  | x :: xs => if x = c then xs else x :: removeFirst c xs

/-- Embedding of JS `parseInt` on an optional query-string parameter:
`parseInt(undefined)` is NaN (`none`); on a string, skip leading spaces,
optional sign, then the longest digit prefix; NaN when no digit. -/
def jsParseInt : Option String → Option Int
  | none => none
  | some s =>
    let cs := s.data.dropWhile (· = ' ')
    let sign : Int := if cs.head? = some '-' then -1 else 1
    let cs := if cs.head? = some '-' ∨ cs.head? = some '+' then cs.tail else cs
    let ds := cs.takeWhile Char.isDigit
    if ds.isEmpty then none else some (sign * (digitsVal ds : Int))

/-! ## POST /api/create-payment-intent (`src/unnamed/part_000` lines 51–127) -/

/-- Customer record as destructured by the handlers (`name`, `email`,
`address` are the fields the server reads; the optional ones default to
empty strings in the metadata). -/
structure Customer where
  name : String
  email : String
  address : String
  city : Option String
  postalCode : Option String
  country : Option String
deriving DecidableEq, Repr

/-- An entry of the `items` array: `name` and `price` are inspected
dynamically, `quantity` is passed through. -/
structure CPIItem where
  name : Option String
  price : JSValue
  quantity : JNum
deriving DecidableEq, Repr

/-- Body of `POST /api/create-payment-intent`.  `items`/`customer` are
`none` when the field is absent (an empty `items` array is a present,
truthy value in JS, hence `Option (List _)` rather than truthiness on the
list). -/
structure CPIRequest where
  amount : JSValue
  currency : Option String
  items : Option (List CPIItem)
  customer : Option Customer
deriving Repr

/-- Price normalization from the validation loop: a string price has its
first `'$'` removed and is `parseFloat`ed; anything else goes through
`parseFloat` directly. -/
def normalizePrice : JSValue → JNum
  | .str s => parseFloatStr ⟨removeFirst '$' s.data⟩
  | v => jsParseFloat v

/-- `true` exactly when a normalized price fails the check
`isNaN(numericPrice) || numericPrice <= 0`. -/
def badPrice (p : JSValue) : Bool :=
  match normalizePrice p with
  | .nan => true
  | .val q => q ≤ 0

/-- The distinct 400 failures of the create-payment-intent validation. -/
inductive CPIError where
  | missingFields : CPIError
  | itemMissingPrice (itemName : String) : CPIError
  | nonPositivePrice : CPIError
deriving DecidableEq, Repr

/-- `item.name || 'unknown'`: an absent or empty name falls back to
`"unknown"` (JS truthiness on the string). -/
def jsNameOrUnknown : Option String → String
  | none => "unknown"
  | some s => if s = "" then "unknown" else s

/-- The validation loop over `items`: first failure wins; `!item.price`
(truthiness) is checked before the numeric check. -/
def validateItems : List CPIItem → Option CPIError
  | [] => none
  | it :: rest =>
    if ¬ it.price.truthy then
      some (.itemMissingPrice (jsNameOrUnknown it.name))
    else if badPrice it.price then
      some .nonPositivePrice
    else validateItems rest

/-- Result of the gateway (Stripe) call as seen by the handler. -/
structure StripePI where
  id : String
  client_secret : String
  status : String
deriving DecidableEq, Repr

/-- Response bodies of `POST /api/create-payment-intent`. -/
inductive CPIBody where
  | validationError (e : CPIError) : CPIBody
  | ok (client_secret : String) (payment_intent_id : String) : CPIBody
  | gatewayError (error details : String) : CPIBody
deriving DecidableEq, Repr

/-- An HTTP response: numeric status plus a typed body. -/
structure Response (β : Type) where
  status : Nat
  body : β
deriving DecidableEq, Repr

/-- The `POST /api/create-payment-intent` handler.  The gateway call's
outcome is a parameter (`Except` of the Stripe error vs the created
payment intent); validation failures return before it is consulted. -/
def createPaymentIntentHandler (req : CPIRequest)
    (gateway : Except String StripePI) : Response CPIBody :=
  if ¬ req.amount.truthy ∨ req.items.isNone ∨ req.customer.isNone then
    ⟨400, .validationError .missingFields⟩
  else
    match validateItems (req.items.getD []) with
    | some e => ⟨400, .validationError e⟩
    | none =>
      match gateway with
      | .ok pi => ⟨200, .ok pi.client_secret pi.id⟩
      | .error msg => ⟨500, .gatewayError "Failed to create payment intent" msg⟩

/-! ## POST /api/payment-success (`src/unnamed/part_000` lines 130–200) -/

/-- Body of `POST /api/payment-success`; `total` is dynamic (the client
may send a string or a number). -/
structure PSRequest where
  paymentIntentId : String
  items : List CPIItem
  customer : Customer
  total : JSValue
deriving Repr

/-- Argument the handler builds for `OrderService.createOrder`: note
`total` goes through `parseFloat`. -/
structure CreateOrderInput where
  stripePaymentIntentId : String
  customer : Customer
  items : List CPIItem
  total : JNum
deriving Repr

/-- What `OrderService.createOrder` returns on success, as the handler
consumes it (`orderId`, `message`, `totalAmount`, `createdAt`). -/
structure OrderResult where
  orderId : String
  message : String
  totalAmount : JNum
  createdAt : String
deriving DecidableEq, Repr

/-- `createOrder(...)` argument built at lines 147–152. -/
def mkCreateOrderInput (req : PSRequest) : CreateOrderInput :=
  { stripePaymentIntentId := req.paymentIntentId
    customer := req.customer
    items := req.items
    total := jsParseFloat req.total }

/-- Last `n` characters of a string, as JS `s.slice(-n)` (the whole
string when it is shorter than `n`). -/
def sliceLast (n : Nat) (s : String) : String :=
  ⟨s.data.drop (s.data.length - n)⟩

/-- The fallback order id of the catch branch:
`` `KK-${Date.now().toString().slice(-6)}` ``. -/
def fallbackOrderId (now : Nat) : String :=
  "KK-" ++ sliceLast 6 (toString now)

/-- The JSON body both success branches of the handler produce (fields
absent from a branch are `none`). -/
structure PSOkBody where
  success : Bool
  orderId : String
  paymentIntentId : String
  message : String
  customerEmail : String
  orderTotal : JSValue
  estimatedDelivery : String
  orderDate : Option String
  warning : Option String
deriving DecidableEq, Repr

/-- Response bodies of `POST /api/payment-success`. -/
inductive PSBody where
  | ok (b : PSOkBody) : PSBody
  | notSucceeded (error : String) (piStatus : String) : PSBody
  | serverError (error details : String) : PSBody
deriving DecidableEq, Repr

/-- The `POST /api/payment-success` handler.  `retrieve` is the outcome
of `stripe.paymentIntents.retrieve` (its exception is the only throwing
step of the outer `try` for a well-shaped body, caught as 500);
`createOrder` is the order service call, whose exception the inner
`catch` converts into the compensating 200 response; `now` is
`Date.now()`. -/
def paymentSuccessHandler (req : PSRequest)
    (retrieve : Except String StripePI)
    (createOrder : CreateOrderInput → Except String OrderResult)
    (now : Nat) : Response PSBody :=
  match retrieve with
  | .error e => ⟨500, .serverError "Failed to process payment confirmation" e⟩
  | .ok pi =>
    if pi.status = "succeeded" then
      match createOrder (mkCreateOrderInput req) with
      | .ok r =>
        ⟨200, .ok
          { success := true
            orderId := r.orderId
            paymentIntentId := req.paymentIntentId
            message := r.message
            customerEmail := req.customer.email
            orderTotal := .num r.totalAmount
            estimatedDelivery := "3-5 business days"
            orderDate := some r.createdAt
            warning := none }⟩
      | .error _ =>
        ⟨200, .ok
          { success := true
            orderId := fallbackOrderId now
            paymentIntentId := req.paymentIntentId
            message := "Thank you " ++ req.customer.name ++
              "! Your payment was successful. Order details will be sent via email."
            customerEmail := req.customer.email
            orderTotal := req.total
            estimatedDelivery := "3-5 business days"
            orderDate := none
            warning := some "Order saved to backup system" }⟩
    else ⟨400, .notSucceeded "Payment was not successful" pi.status⟩

/-- Modelled from the spec: `OrderService.createOrder` (the file
`services/orderService.js` is not under `src/`; only its caller is) —
§4.1: "sets `totalAmount` to the caller-supplied `total` (the
authoritative, gateway-confirmed figure)" and "Returns {orderId,
totalAmount, createdAt, message}"; it "Fails with `PersistenceError` on
store unavailability".  The generated id/message/timestamp and the store
outcome are abstracted as parameters. -/
def specCreateOrder (oid msg created : String) (storeUp : Bool)
    (failMsg : String) (input : CreateOrderInput) : Except String OrderResult :=
  if storeUp then
    .ok { orderId := oid, message := msg, totalAmount := input.total, createdAt := created }
  else .error failMsg

/-! ## PUT /api/admin/orders/:orderId/status (`src/unnamed/part_000` lines 259–291) -/

/-- The record `OrderService.updateOrderStatus` returns, in the fields
the handler projects out. -/
structure UpdatedOrder where
  order_id : String
  order_status : String
  updated_at : Nat
deriving DecidableEq, Repr

/-- `validStatuses` of line 264. -/
def validStatuses : List String := ["processing", "shipped", "delivered", "cancelled"]

/-- Response bodies of `PUT /api/admin/orders/:orderId/status`. -/
inductive USBody where
  | invalidStatus (error : String) (valid : List String) : USBody
  | notFound (error : String) : USBody
  | ok (message orderId status : String) (updatedAt : Nat) : USBody
  | serverError (error : String) : USBody
deriving DecidableEq, Repr

/-- The `PUT /api/admin/orders/:orderId/status` handler.  `status` is
`none` when the body carries no (string) status — `validStatuses.includes`
is then false.  `update` is the outcome of
`OrderService.updateOrderStatus`: an exception (caught as 500), `none`
(order absent), or the updated record. -/
def updateOrderStatusHandler (orderId : String) (status : Option String)
    (update : Except String (Option UpdatedOrder)) : Response USBody :=
  match status with
  | none => ⟨400, .invalidStatus "Invalid status" validStatuses⟩
  | some s =>
    if validStatuses.contains s then
      match update with
      | .error _ => ⟨500, .serverError "Failed to update order status"⟩
      | .ok none => ⟨404, .notFound "Order not found"⟩
      | .ok (some o) =>
        ⟨200, .ok ("Order " ++ orderId ++ " status updated to " ++ s)
          o.order_id o.order_status o.updated_at⟩
    else ⟨400, .invalidStatus "Invalid status" validStatuses⟩

/-! ## GET /api/admin/orders (`src/unnamed/part_000` lines 234–256) -/

/-- `parseInt(req.query.limit) || 10` of line 236: NaN and 0 are falsy,
so both fall back to 10. -/
def adminOrdersLimit (limit : Option String) : Int :=
  match jsParseInt limit with
  | none => 10
  | some n => if n = 0 then 10 else n

/-- A stored order row as the admin listing consumes it. -/
structure DBOrder where
  order_id : String
  customer_name : String
  customer_email : String
  total_amount : Rat
  order_status : String
  created_at : Nat
deriving DecidableEq, Repr

/-- "created more recently or equally": the descending-`createdAt`
ordering of the admin listing. -/
def moreRecent (a b : DBOrder) : Prop := b.created_at ≤ a.created_at

instance : DecidableRel moreRecent := fun a b => by
  unfold moreRecent; infer_instance

instance : IsTotal DBOrder moreRecent :=
  ⟨fun a b => le_total b.created_at a.created_at⟩

instance : IsTrans DBOrder moreRecent :=
  ⟨fun _ _ _ h1 h2 => le_trans h2 h1⟩

/-- Modelled from the spec: `OrderService.getRecentOrders`
(`services/orderService.js` is not under `src/`) — §4.1: "returns the
`limit` most recently created orders ordered by `createdAt` descending".
The store's rows are passed in; sorting stands for the store's
`ORDER BY created_at DESC` and `take` for its `LIMIT`. -/
def getRecentOrders (rows : List DBOrder) (limit : Int) : List DBOrder :=
  (rows.insertionSort moreRecent).take limit.toNat

/-! ## GET /api/health (`src/unnamed/part_000` lines 294–327) -/

/-- The health report the handler builds: overall `status` plus the two
per-service fields. -/
structure Health where
  status : String
  stripe : String
  database : String
deriving DecidableEq, Repr

/-- The `GET /api/health` handler, parameterized on whether the Stripe
probe and the `SELECT 1` probe succeed.  `status` starts at `"OK"`, is
set to `"WARNING"` when the Stripe probe throws, then to `"ERROR"` when
the database probe throws (overwriting); the HTTP code is 200 for
OK/WARNING and 500 otherwise. -/
def healthHandler (stripeOk dbOk : Bool) : Response Health :=
  let h0 : Health := { status := "OK", stripe := "unknown", database := "unknown" }
  let h1 := if stripeOk then { h0 with stripe := "connected" }
            else { h0 with stripe := "error", status := "WARNING" }
  let h2 := if dbOk then { h1 with database := "connected" }
            else { h1 with database := "error", status := "ERROR" }
  let code := if h2.status = "OK" then 200 else if h2.status = "WARNING" then 200 else 500
  ⟨code, h2⟩

/-! ## Newsletter service (`src/unnamed/part_001` lines 4–48) over the
schema `newsletter_subscriptions(id SERIAL, email UNIQUE, subscribed_at,
is_active DEFAULT TRUE)` (`src/backend/database/newsletter-schema.sql`). -/

/-- One row of `newsletter_subscriptions`. -/
structure SubRow where
  id : Nat
  email : String
  subscribed_at : Nat
  is_active : Bool
deriving DecidableEq, Repr, Inhabited

/-- The `newsletter_subscriptions` table: its rows plus the `SERIAL`
sequence counter. -/
structure NewsletterDB where
  rows : List SubRow
  nextId : Nat
deriving Repr

/-- `NewsletterService.subscribe`:
`INSERT INTO newsletter_subscriptions (email) VALUES ($1)
 ON CONFLICT (email) DO UPDATE SET is_active = true,
 subscribed_at = CURRENT_TIMESTAMP RETURNING *`.
A fresh insert takes the schema defaults (`is_active` TRUE,
`subscribed_at` now); a conflict on the unique `email` updates the
conflicting row.  Returns the new table and the returned row. -/
def subscribe (db : NewsletterDB) (email : String) (now : Nat) :
    NewsletterDB × SubRow :=
  if db.rows.any (fun r => r.email == email) then
    ({ db with
        rows := db.rows.map (fun r =>
          if r.email == email then { r with is_active := true, subscribed_at := now }
          else r) },
     -- the updated row handed back by RETURNING *
     ((db.rows.filter (fun r => r.email == email)).map
        (fun r => { r with is_active := true, subscribed_at := now })).headI)
  else
    let r : SubRow := { id := db.nextId, email := email, subscribed_at := now, is_active := true }
    ({ rows := db.rows ++ [r], nextId := db.nextId + 1 }, r)

/-- `NewsletterService.unsubscribe`:
`UPDATE newsletter_subscriptions SET is_active = false WHERE email = $1
 RETURNING *`; when zero rows come back the service throws
`'Email not found in subscription list'`. -/
def unsubscribe (db : NewsletterDB) (email : String) :
    Except String NewsletterDB :=
  let updated := { db with
    rows := db.rows.map (fun r =>
      if r.email == email then { r with is_active := false } else r) }
  if (db.rows.filter (fun r => r.email == email)).length = 0 then
    .error "Email not found in subscription list"
  else .ok updated

/-! ## Theorems -/

/-- C4: the health report's overall status is OK exactly when both the
gateway probe and the store probe succeed, WARNING exactly when only the
gateway probe fails, ERROR exactly when the store probe fails; the HTTP
status code is 200 for OK and WARNING and 500 for ERROR. -/
theorem C4_health_status_matrix (stripeOk dbOk : Bool) :
    ((healthHandler stripeOk dbOk).body.status = "OK" ↔ stripeOk = true ∧ dbOk = true) ∧
    ((healthHandler stripeOk dbOk).body.status = "WARNING" ↔ stripeOk = false ∧ dbOk = true) ∧
    ((healthHandler stripeOk dbOk).body.status = "ERROR" ↔ dbOk = false) ∧
    ((healthHandler stripeOk dbOk).status = 200 ↔ dbOk = true) ∧
    ((healthHandler stripeOk dbOk).status = 500 ↔ dbOk = false) := by
  cases stripeOk <;> cases dbOk <;> simp [healthHandler]

/-- C3: the status-update handler answers 400 whenever the body's status
is not one of the four valid strings, 404 when the status is valid but
the order service finds no order, and 200 carrying the updated record
otherwise. -/
theorem C3_update_order_status_cases (orderId : String) (status : Option String)
    (update : Except String (Option UpdatedOrder)) :
    ((∀ s, status = some s → s ∉ validStatuses) →
      updateOrderStatusHandler orderId status update =
        ⟨400, .invalidStatus "Invalid status" validStatuses⟩) ∧
    (∀ s, status = some s → s ∈ validStatuses → update = .ok none →
      updateOrderStatusHandler orderId status update = ⟨404, .notFound "Order not found"⟩) ∧
    (∀ s o, status = some s → s ∈ validStatuses → update = .ok (some o) →
      updateOrderStatusHandler orderId status update =
        ⟨200, .ok ("Order " ++ orderId ++ " status updated to " ++ s)
          o.order_id o.order_status o.updated_at⟩) := by
  refine ⟨fun hinv => ?_, fun s hs hmem hup => ?_, fun s o hs hmem hup => ?_⟩
  · cases status with
    | none => simp [updateOrderStatusHandler]
    | some s =>
      have hmem : s ∉ validStatuses := hinv s rfl
      simp [updateOrderStatusHandler, List.contains, hmem]
  · subst hs hup
    simp [updateOrderStatusHandler, List.contains, hmem]
  · subst hs hup
    simp [updateOrderStatusHandler, List.contains, hmem]

/-- Witness for C3 at a concrete valid update. -/
theorem C3_update_order_status_cases_witness :
    updateOrderStatusHandler "ord-1" (some "shipped")
        (.ok (some ⟨"ord-1", "shipped", 42⟩)) =
      ⟨200, .ok "Order ord-1 status updated to shipped" "ord-1" "shipped" 42⟩ :=
  (C3_update_order_status_cases "ord-1" (some "shipped")
    (.ok (some ⟨"ord-1", "shipped", 42⟩))).2.2 "shipped" ⟨"ord-1", "shipped", 42⟩
    rfl (by decide) rfl

/-- C1: when the gateway reports the payment intent `"succeeded"` and the
order-persistence call fails, the payment-success handler answers HTTP
200 with `success: true`, the fallback order id `KK-` followed by the
last six digits of the current epoch-milliseconds, the caller's total
echoed back, and the warning field — never a 4xx or 5xx status. -/
theorem C1_payment_success_fallback (req : PSRequest) (pi : StripePI)
    (createOrder : CreateOrderInput → Except String OrderResult) (now : Nat) (e : String)
    (hpi : pi.status = "succeeded")
    (hdb : createOrder (mkCreateOrderInput req) = .error e) :
    paymentSuccessHandler req (.ok pi) createOrder now =
      ⟨200, .ok
        { success := true
          orderId := "KK-" ++ sliceLast 6 (toString now)
          paymentIntentId := req.paymentIntentId
          message := "Thank you " ++ req.customer.name ++
            "! Your payment was successful. Order details will be sent via email."
          customerEmail := req.customer.email
          orderTotal := req.total
          estimatedDelivery := "3-5 business days"
          orderDate := none
          warning := some "Order saved to backup system" }⟩ := by
  simp [paymentSuccessHandler, hpi, hdb, fallbackOrderId]

/-- Witness for C1 at a concrete request and failing store. -/
theorem C1_payment_success_fallback_witness :
    paymentSuccessHandler
        ⟨"pi_1", [], ⟨"Ana", "a@b.c", "1 Main St", none, none, none⟩, .num (.val 60)⟩
        (.ok ⟨"pi_1", "cs_1", "succeeded"⟩) (fun _ => .error "db down") 1712345678901 =
      ⟨200, .ok
        { success := true
          orderId := "KK-678901"
          paymentIntentId := "pi_1"
          message := "Thank you Ana! Your payment was successful. Order details will be sent via email."
          customerEmail := "a@b.c"
          orderTotal := .num (.val 60)
          estimatedDelivery := "3-5 business days"
          orderDate := none
          warning := some "Order saved to backup system" }⟩ := by
  have h := C1_payment_success_fallback
    ⟨"pi_1", [], ⟨"Ana", "a@b.c", "1 Main St", none, none, none⟩, .num (.val 60)⟩
    ⟨"pi_1", "cs_1", "succeeded"⟩ (fun _ => .error "db down") 1712345678901 "db down"
    rfl rfl
  rw [h]; decide

/-- C7: when the retrieved payment intent's status is not `"succeeded"`,
the payment-success handler answers 400 for every possible order-service
behavior (so order creation is never attempted); and the handler answers
500 exactly when the retrieval step itself throws. -/
theorem C7_payment_success_verification (req : PSRequest)
    (retrieve : Except String StripePI)
    (createOrder : CreateOrderInput → Except String OrderResult) (now : Nat) :
    (∀ pi, retrieve = .ok pi → pi.status ≠ "succeeded" →
      ∀ anyOrderService : CreateOrderInput → Except String OrderResult,
        paymentSuccessHandler req retrieve anyOrderService now =
          ⟨400, .notSucceeded "Payment was not successful" pi.status⟩) ∧
    ((paymentSuccessHandler req retrieve createOrder now).status = 500 ↔
      ∃ e, retrieve = .error e) := by
  constructor
  · intro pi hpi hstat anyOrderService
    subst hpi
    simp [paymentSuccessHandler, hstat]
  · cases retrieve with
    | error e => simp [paymentSuccessHandler]
    | ok pi =>
      by_cases hstat : pi.status = "succeeded"
      · cases hco : createOrder (mkCreateOrderInput req) <;>
          simp [paymentSuccessHandler, hstat, hco]
      · simp [paymentSuccessHandler, hstat]

/-- Witness for C7 at a concrete non-succeeded intent. -/
theorem C7_payment_success_verification_witness :
    paymentSuccessHandler
        ⟨"pi_2", [], ⟨"Bo", "b@c.d", "2 Main St", none, none, none⟩, .num (.val 10)⟩
        (.ok ⟨"pi_2", "cs_2", "requires_payment_method"⟩) (fun _ => .error "db down") 7 =
      ⟨400, .notSucceeded "Payment was not successful" "requires_payment_method"⟩ :=
  (C7_payment_success_verification
      ⟨"pi_2", [], ⟨"Bo", "b@c.d", "2 Main St", none, none, none⟩, .num (.val 10)⟩
      (.ok ⟨"pi_2", "cs_2", "requires_payment_method"⟩) (fun _ => .error "db down") 7).1
    ⟨"pi_2", "cs_2", "requires_payment_method"⟩ rfl (by decide) _

/-- C10: on the durable path the response's `orderTotal` is the order
service's `totalAmount` — per the spec-modelled `createOrder`, the
`parseFloat` of the request's `total` — with no warning field; on the
fallback path it is the caller-supplied `total` echoed unchanged
(possibly still a string), with the warning field present, so the two
success variants are distinguishable. -/
theorem C10_order_total_provenance (req : PSRequest) (pi : StripePI) (now : Nat)
    (oid msg created failMsg : String) (hpi : pi.status = "succeeded") :
    (∃ b, (paymentSuccessHandler req (.ok pi)
        (specCreateOrder oid msg created true failMsg) now).body = .ok b ∧
      b.orderTotal = .num (jsParseFloat req.total) ∧ b.warning = none) ∧
    (∃ b, (paymentSuccessHandler req (.ok pi)
        (specCreateOrder oid msg created false failMsg) now).body = .ok b ∧
      b.orderTotal = req.total ∧ b.warning = some "Order saved to backup system") := by
  have hdurable : (paymentSuccessHandler req (.ok pi)
      (specCreateOrder oid msg created true failMsg) now).body = .ok
        { success := true
          orderId := oid
          paymentIntentId := req.paymentIntentId
          message := msg
          customerEmail := req.customer.email
          orderTotal := .num (jsParseFloat req.total)
          estimatedDelivery := "3-5 business days"
          orderDate := some created
          warning := none } := by
    simp [paymentSuccessHandler, hpi, specCreateOrder, mkCreateOrderInput]
  have hfallback : (paymentSuccessHandler req (.ok pi)
      (specCreateOrder oid msg created false failMsg) now).body = .ok
        { success := true
          orderId := fallbackOrderId now
          paymentIntentId := req.paymentIntentId
          message := "Thank you " ++ req.customer.name ++
            "! Your payment was successful. Order details will be sent via email."
          customerEmail := req.customer.email
          orderTotal := req.total
          estimatedDelivery := "3-5 business days"
          orderDate := none
          warning := some "Order saved to backup system" } := by
    simp [paymentSuccessHandler, hpi, specCreateOrder]
  exact ⟨⟨_, hdurable, rfl, rfl⟩, ⟨_, hfallback, rfl, rfl⟩⟩

/-- Witness for C10: a string total is echoed as a string on the
fallback path and parsed to a number on the durable path. -/
theorem C10_order_total_provenance_witness :
    (∃ b, (paymentSuccessHandler
        ⟨"pi_3", [], ⟨"Cy", "c@d.e", "3 Main St", none, none, none⟩, .str "59.99"⟩
        (.ok ⟨"pi_3", "cs_3", "succeeded"⟩)
        (specCreateOrder "KK-AB12CD" "ok" "2024-01-01" true "down") 5).body = .ok b ∧
      b.orderTotal = .num (jsParseFloat (.str "59.99")) ∧ b.warning = none) ∧
    (∃ b, (paymentSuccessHandler
        ⟨"pi_3", [], ⟨"Cy", "c@d.e", "3 Main St", none, none, none⟩, .str "59.99"⟩
        (.ok ⟨"pi_3", "cs_3", "succeeded"⟩)
        (specCreateOrder "KK-AB12CD" "ok" "2024-01-01" false "down") 5).body = .ok b ∧
      b.orderTotal = .str "59.99" ∧ b.warning = some "Order saved to backup system") :=
  C10_order_total_provenance
    ⟨"pi_3", [], ⟨"Cy", "c@d.e", "3 Main St", none, none, none⟩, .str "59.99"⟩
    ⟨"pi_3", "cs_3", "succeeded"⟩ 5 "KK-AB12CD" "ok" "2024-01-01" "down" rfl

/-- Helper: when every item's price is truthy and some item's normalized
price is NaN or non-positive, the validation loop reports the
non-positive-price failure. -/
theorem validateItems_nonPositive (l : List CPIItem)
    (htruthy : ∀ it ∈ l, it.price.truthy = true)
    (hbad : ∃ it ∈ l, badPrice it.price = true) :
    validateItems l = some .nonPositivePrice := by
  induction l with
  | nil => simp at hbad
  | cons it rest ih =>
    have ht := htruthy it (List.mem_cons_self it rest)
    by_cases hb : badPrice it.price = true
    · simp [validateItems, ht, hb]
    · obtain ⟨x, hx, hbx⟩ := hbad
      rcases List.mem_cons.mp hx with h | h
      · exact absurd (h ▸ hbx) hb
      · have hrest := ih (fun y hy => htruthy y (List.mem_cons_of_mem _ hy)) ⟨x, h, hbx⟩
        simp [validateItems, ht, hb, hrest]

/-- Helper: any bad price somewhere in the list makes the validation
loop fail with some error (a falsy price hits the missing-price check
first, a truthy one the non-positive check). -/
theorem validateItems_isSome_of_bad (l : List CPIItem)
    (hbad : ∃ it ∈ l, badPrice it.price = true) :
    ∃ err, validateItems l = some err := by
  induction l with
  | nil => simp at hbad
  | cons it rest ih =>
    by_cases ht : it.price.truthy = true
    · by_cases hb : badPrice it.price = true
      · exact ⟨.nonPositivePrice, by simp [validateItems, ht, hb]⟩
      · obtain ⟨x, hx, hbx⟩ := hbad
        rcases List.mem_cons.mp hx with h | h
        · exact absurd (h ▸ hbx) hb
        · obtain ⟨err, herr⟩ := ih ⟨x, h, hbx⟩
          exact ⟨err, by simp [validateItems, ht, hb, herr]⟩
    · exact ⟨.itemMissingPrice (jsNameOrUnknown it.name), by simp [validateItems, ht]⟩

/-- C2: price normalization maps the string `"$12.50"` and the number
`12.50` both to the numeric value `12.50`; a price parsing to a
non-positive value (`"$0"`, `-5`) or failing to parse is flagged by
`badPrice`, and any request whose items all carry truthy prices but
contain such a price is answered 400 for every gateway behavior — i.e.
before any gateway call. -/
theorem C2_price_validation :
    (normalizePrice (.str "$12.50") = .val 12.50 ∧
      normalizePrice (.num (.val 12.50)) = .val 12.50) ∧
    (badPrice (.str "$0") = true ∧ badPrice (.num (.val (-5))) = true ∧
      badPrice (.str "not a price") = true) ∧
    (∀ (amount : JSValue) (currency : Option String) (items : List CPIItem)
      (customer : Customer) (g : Except String StripePI),
      amount.truthy = true →
      (∀ it ∈ items, it.price.truthy = true) →
      (∃ it ∈ items, badPrice it.price = true) →
      createPaymentIntentHandler ⟨amount, currency, some items, some customer⟩ g =
        ⟨400, .validationError .nonPositivePrice⟩) ∧
    (∀ (amount : JSValue) (currency : Option String) (items : List CPIItem)
      (customer : Customer) (g : Except String StripePI),
      amount.truthy = true →
      (∃ it ∈ items, badPrice it.price = true) →
      ∃ err, createPaymentIntentHandler ⟨amount, currency, some items, some customer⟩ g =
        ⟨400, .validationError err⟩) := by
  refine ⟨⟨?_, ?_⟩, ⟨by decide, by decide, by decide⟩,
    fun amount currency items customer g ha htruthy hbad => ?_,
    fun amount currency items customer g ha hbad => ?_⟩
  · have h : normalizePrice (.str "$12.50") = .val (mkRat 25 2) := by decide
    rw [h]
    congr 1
    rw [Rat.mkRat_eq_div]
    norm_num
  · have h : (12.50 : Rat) = mkRat 25 2 := by
      rw [Rat.mkRat_eq_div]; norm_num
    simp [normalizePrice, jsParseFloat, h]
  · simp [createPaymentIntentHandler, ha, validateItems_nonPositive items htruthy hbad]
  · obtain ⟨err, herr⟩ := validateItems_isSome_of_bad items hbad
    exact ⟨err, by simp [createPaymentIntentHandler, ha, herr]⟩

/-- Witness for C2: the single-item request with price `"$0"` is
rejected 400 with the non-positive-price error, gateway untouched. -/
theorem C2_price_validation_witness :
    createPaymentIntentHandler
        ⟨.num (.val 6000), none, some [⟨some "Serum", .str "$0", .val 1⟩],
          some ⟨"Dee", "d@e.f", "4 Main St", none, none, none⟩⟩
        (.error "gateway never reached") =
      ⟨400, .validationError .nonPositivePrice⟩ :=
  C2_price_validation.2.2.1 (.num (.val 6000)) none
    [⟨some "Serum", .str "$0", .val 1⟩]
    ⟨"Dee", "d@e.f", "4 Main St", none, none, none⟩
    (.error "gateway never reached") (by decide)
    (by intro it hit; simp at hit; subst hit; decide)
    ⟨⟨some "Serum", .str "$0", .val 1⟩, by simp, by decide⟩

/-- C9: the required-field checks are truthiness checks, so `amount: 0`
is answered 400 "Missing required fields" whatever the rest of the body
is, and an item whose price is the number `0` is reported as missing its
price rather than reaching the non-positive-price check. -/
theorem C9_truthiness_required_fields (currency : Option String)
    (items : Option (List CPIItem)) (customer : Option Customer)
    (g : Except String StripePI) :
    (createPaymentIntentHandler ⟨.num (.val 0), currency, items, customer⟩ g =
      ⟨400, .validationError .missingFields⟩) ∧
    (∀ (amount : JSValue) (name : Option String) (qty : JNum) (cust : Customer)
      (rest : List CPIItem),
      amount.truthy = true →
      createPaymentIntentHandler
          ⟨amount, currency, some (⟨name, .num (.val 0), qty⟩ :: rest), some cust⟩ g =
        ⟨400, .validationError (.itemMissingPrice (jsNameOrUnknown name))⟩) := by
  constructor
  · simp [createPaymentIntentHandler, JSValue.truthy]
  · intro amount name qty cust rest ha
    have h0 : JSValue.truthy (.num (.val 0)) = false := by decide
    simp [createPaymentIntentHandler, ha, validateItems, h0]

/-- Witness for C9 at a concrete item priced `0`. -/
theorem C9_truthiness_required_fields_witness :
    createPaymentIntentHandler
        ⟨.num (.val 6000), none, some [⟨some "Toner", .num (.val 0), .val 2⟩],
          some ⟨"Eve", "e@f.g", "5 Main St", none, none, none⟩⟩
        (.error "gateway never reached") =
      ⟨400, .validationError (.itemMissingPrice "Toner")⟩ :=
  (C9_truthiness_required_fields none
      (some [⟨some "Toner", .num (.val 0), .val 2⟩])
      (some ⟨"Eve", "e@f.g", "5 Main St", none, none, none⟩)
      (.error "gateway never reached")).2
    (.num (.val 6000)) (some "Toner") (.val 2)
    ⟨"Eve", "e@f.g", "5 Main St", none, none, none⟩ [] (by decide)

/-- C8 counterexample: the query parameter `"0"` parses as the number 0,
yet the limit passed to the store is 10, not 0 — the claim's "the limit
when it parses as a number" fails at `limit=0`. -/
theorem C8_counterexample_limit_zero :
    jsParseInt (some "0") = some 0 ∧ adminOrdersLimit (some "0") = 10 ∧
    adminOrdersLimit (some "0") ≠ 0 := by decide

/-- C8 (amended): the count requested from the store is the parsed limit
when it parses to a nonzero number, and 10 when the parameter is absent,
non-numeric, or parses to 0; the rows handed back are a
descending-`createdAt` prefix of a sorted permutation of the store's
orders, of length capped by that count (no upper bound enforced). -/
theorem C8_admin_orders_limit (q : Option String) (rows : List DBOrder) :
    (jsParseInt q = none → adminOrdersLimit q = 10) ∧
    (jsParseInt q = some 0 → adminOrdersLimit q = 10) ∧
    (∀ n : Int, jsParseInt q = some n → n ≠ 0 → adminOrdersLimit q = n) ∧
    (∃ sorted : List DBOrder, rows.Perm sorted ∧ sorted.Sorted moreRecent ∧
      getRecentOrders rows (adminOrdersLimit q) =
        sorted.take (adminOrdersLimit q).toNat) := by
  refine ⟨fun h => ?_, fun h => ?_, fun n hn hnz => ?_,
    ⟨rows.insertionSort moreRecent, (rows.perm_insertionSort moreRecent).symm,
      List.sorted_insertionSort moreRecent rows, rfl⟩⟩
  · simp [adminOrdersLimit, h]
  · simp [adminOrdersLimit, h]
  · simp [adminOrdersLimit, hn, hnz]

/-- Witness for C8 at a concrete numeric limit. -/
theorem C8_admin_orders_limit_witness :
    adminOrdersLimit (some "25") = 25 :=
  (C8_admin_orders_limit (some "25") []).2.2.1 25 (by decide) (by decide)

/-- C5: subscribing an email twice in a row leaves exactly one
subscription row for it: starting from a table without the email, the
first call inserts the row (active, stamped `t1`), the second call
updates that same row's `subscribed_at` to `t2` and keeps `is_active`
true without growing the table. -/
theorem C5_subscribe_upsert (db : NewsletterDB) (e : String) (t1 t2 : Nat)
    (habs : ∀ r ∈ db.rows, r.email ≠ e) :
    (subscribe db e t1).2 = ⟨db.nextId, e, t1, true⟩ ∧
    (subscribe db e t1).1.rows.filter (fun r => r.email == e) =
      [⟨db.nextId, e, t1, true⟩] ∧
    (subscribe (subscribe db e t1).1 e t2).1.rows.length =
      (subscribe db e t1).1.rows.length ∧
    (subscribe (subscribe db e t1).1 e t2).1.rows.filter (fun r => r.email == e) =
      [⟨db.nextId, e, t2, true⟩] ∧
    (subscribe (subscribe db e t1).1 e t2).2 = ⟨db.nextId, e, t2, true⟩ := by
  have hbeq : ∀ r ∈ db.rows, (r.email == e) = false := by
    intro r hr
    simpa using habs r hr
  have hany : db.rows.any (fun r => r.email == e) = false := by
    rw [List.any_eq_false]
    intro r hr
    simp [hbeq r hr]
  have hfilter : db.rows.filter (fun r => r.email == e) = [] := by
    rw [List.filter_eq_nil_iff]
    intro r hr
    simp [hbeq r hr]
  have h1 : subscribe db e t1 =
      ({ rows := db.rows ++ [⟨db.nextId, e, t1, true⟩], nextId := db.nextId + 1 },
        (⟨db.nextId, e, t1, true⟩ : SubRow)) := by
    simp [subscribe, hany]
  have hany2 : (db.rows ++ [(⟨db.nextId, e, t1, true⟩ : SubRow)]).any
      (fun r => r.email == e) = true := by
    simp
  have hmap : db.rows.map (fun r =>
      if r.email == e then { r with is_active := true, subscribed_at := t2 } else r) =
      db.rows := by
    rw [List.map_congr_left (g := id) (fun r hr => by simp [hbeq r hr])]
    exact List.map_id db.rows
  have h2 : subscribe (subscribe db e t1).1 e t2 =
      ({ rows := db.rows ++ [⟨db.nextId, e, t2, true⟩], nextId := db.nextId + 1 },
        (⟨db.nextId, e, t2, true⟩ : SubRow)) := by
    rw [h1]
    simp only [subscribe, hany2, if_true, List.map_append, List.filter_append, hmap,
      hfilter]
    simp
  refine ⟨by rw [h1], ?_, ?_, ?_, by rw [h2]⟩
  · rw [h1]
    simp [List.filter_append, hfilter]
  · rw [h2, h1]
    simp
  · rw [h2]
    simp [List.filter_append, hfilter]

/-- Witness for C5 on the empty table. -/
theorem C5_subscribe_upsert_witness :
    (subscribe (subscribe ⟨[], 0⟩ "kk@beauty.com" 1).1 "kk@beauty.com" 2).1.rows.filter
        (fun r => r.email == "kk@beauty.com") = [⟨0, "kk@beauty.com", 2, true⟩] :=
  (C5_subscribe_upsert ⟨[], 0⟩ "kk@beauty.com" 1 2 (by simp)).2.2.2.1

/-- C6: unsubscribing an email with no subscription row fails with the
not-found error; unsubscribing an email that has a row succeeds, keeps
every row (same length, same emails in order), and marks that email's
rows inactive. -/
theorem C6_unsubscribe_cases (db : NewsletterDB) (e : String) :
    ((∀ r ∈ db.rows, r.email ≠ e) →
      unsubscribe db e = .error "Email not found in subscription list") ∧
    (∀ r0 ∈ db.rows, r0.email = e →
      ∃ db2, unsubscribe db e = .ok db2 ∧
        db2.rows.length = db.rows.length ∧
        db2.rows.map (fun r => r.email) = db.rows.map (fun r => r.email) ∧
        ∀ r ∈ db2.rows, r.email = e → r.is_active = false) := by
  constructor
  · intro habs
    have hfilter : db.rows.filter (fun r => r.email == e) = [] := by
      rw [List.filter_eq_nil_iff]
      intro r hr
      simpa using habs r hr
    simp [unsubscribe, hfilter]
  · intro r0 hr0 he
    have hmem : r0 ∈ db.rows.filter (fun r => r.email == e) := by
      rw [List.mem_filter]
      exact ⟨hr0, by simp [he]⟩
    have hne : (db.rows.filter (fun r => r.email == e)).length ≠ 0 := by
      intro hlen
      rw [List.length_eq_zero] at hlen
      rw [hlen] at hmem
      exact List.not_mem_nil r0 hmem
    have hok : unsubscribe db e = .ok
        { rows := db.rows.map (fun r =>
                    if r.email == e then { r with is_active := false } else r)
          nextId := db.nextId } := by
      simp [unsubscribe, hne]
    refine ⟨_, hok, by simp, ?_, ?_⟩
    · rw [List.map_map]
      exact List.map_congr_left (fun r _ => by
        simp only [Function.comp]
        split <;> rfl)
    · intro r hr hre
      obtain ⟨r', hr', hfr⟩ := List.mem_map.mp hr
      by_cases h : r'.email == e
      · rw [← hfr]
        simp [h]
      · rw [← hfr] at hre
        simp [h] at hre
        exact absurd hre (by simpa using h)

/-- Witness for C6: unsubscribing a never-seen email errors on a
one-row table for a different address. -/
theorem C6_unsubscribe_cases_witness :
    unsubscribe ⟨[⟨0, "kk@beauty.com", 1, true⟩], 1⟩ "ghost@nowhere.io" =
      .error "Email not found in subscription list" :=
  (C6_unsubscribe_cases ⟨[⟨0, "kk@beauty.com", 1, true⟩], 1⟩ "ghost@nowhere.io").1
    (by intro r hr; simp at hr; subst hr; decide)
